import Mathlib

/-!
Verification of the media-server settings feature of the trailarr frontend.

The embedding below translates the TypeScript sources
`src/frontend/src/app/models/mediaserver.ts`,
`src/frontend/src/app/services/mediaserver.service.ts` and
`src/frontend/src/app/settings/mediaservers/mediaservers.component.ts`
into pure Lean functions.  Side effects are made explicit: emitted toast
notifications are returned as a list, outgoing HTTP requests as an
`Option Request`, and the mutable Angular signals of the component become
fields of an explicit state record that each handler transforms.
TypeScript string lengths are modelled by `String.length` (the inputs that
appear in the claims are ASCII, where the two notions agree).
-/

namespace Trailarr

/-- `MediaServerType`, the closed string enum from `models/mediaserver.ts`. -/
inductive MediaServerType where
  | Emby
  | Jellyfin
  | Plex
deriving DecidableEq, Repr

/-- The string value carried by each enum member (`Emby = 'emby'`, ...). -/
def MediaServerType.value : MediaServerType → String
  | .Emby => "emby"
  | .Jellyfin => "jellyfin"
  | .Plex => "plex"

/-- `MediaServerCreate` from `models/mediaserver.ts`. -/
structure MediaServerCreate where
  name : String
  server_type : MediaServerType
  url : String
  api_key : String
  enabled : Bool
deriving DecidableEq, Repr

/-- `MediaServerRead` from `models/mediaserver.ts`: the create fields plus
`id` and the `added_at` timestamp string. -/
structure MediaServerRead where
  id : Int
  name : String
  server_type : MediaServerType
  url : String
  api_key : String
  enabled : Bool
  added_at : String
deriving DecidableEq, Repr

/-- `MediaServerUpdate` from `models/mediaserver.ts`: all fields optional. -/
structure MediaServerUpdate where
  name : Option String
  server_type : Option MediaServerType
  url : Option String
  api_key : Option String
  enabled : Option Bool
deriving DecidableEq, Repr

/-- A toast notification emitted through `WebsocketService.showToast`. -/
structure Toast where
  message : String
  level : String
deriving DecidableEq, Repr

/-- The service field `newMediaServer` (mediaserver.service.ts lines 22-30):
the sentinel placeholder, built once at service construction.  Its
`added_at` is `new Date().toISOString()` evaluated at construction time,
passed here as the parameter `constructionTime`. -/
def newMediaServer (constructionTime : String) : MediaServerRead :=
  { added_at := constructionTime
    api_key := ""
    enabled := true
    id := -1
    name := ""
    server_type := MediaServerType.Emby
    url := "" }

/-- `selectedMediaServer` (mediaserver.service.ts lines 34-37): look the
targeted id up in the snapshot with `Array.find`; an entity is returned if
found, the construction-time placeholder otherwise.  The snapshot is the
current value of `mediaServersResource`, `mediaServerID` the targeted id. -/
def selectedMediaServer (constructionTime : String)
    (snapshot : List MediaServerRead) (mediaServerID : Int) : MediaServerRead :=
  match snapshot.find? (fun s => s.id == mediaServerID) with
  | some server => server
  | none => newMediaServer constructionTime

/-- `mediaServerExists` (mediaserver.service.ts lines 43-48): membership
check of `id` against the snapshot; on a miss with `id != -1` a single
error toast is emitted.  The returned list holds the emitted toasts. -/
def mediaServerExists (snapshot : List MediaServerRead) (id : Int) :
    Bool × List Toast :=
  let found := snapshot.any (fun s => s.id == id)
  if found then (true, [])
  else if id != -1 then
    (false, [{ message := "Media Server with ID \x27" ++ toString id ++
                "\x27 does not exist.", level := "error" }])
  else (false, [])

/-- An outgoing HTTP request of the service, tagged by operation.
`addMediaServer` posts a `MediaServerCreate`, `testMediaServer` posts one to
the test endpoint, `updateMediaServer` puts a `MediaServerUpdate` to the id
resource, `deleteMediaServer` deletes it. -/
inductive Request where
  | test (payload : MediaServerCreate)
  | create (payload : MediaServerCreate)
  | update (id : Int) (payload : MediaServerUpdate)
  | delete (id : Int)
deriving DecidableEq, Repr

/-- JavaScript `String.prototype.toLowerCase` restricted to the ASCII range
(`Char.toLower` lowercases ASCII letters, which covers the strings the
component compares). -/
def jsToLowerCase (s : String) : String := String.mk (s.data.map Char.toLower)

/-- JavaScript `String.prototype.includes`: substring containment. -/
def jsIncludes (s pat : String) : Bool := decide (pat.data <:+: s.data)

/-- JavaScript `String.prototype.startsWith`. -/
def jsStartsWith (s pre : String) : Bool := decide (pre.data <+: s.data)

/-- The url pattern test, regex `^https?:` then two slashes then `.*`: the
pattern is anchored at the start only and `.*` accepts any tail, so it
holds exactly when the url starts with `http://` or `https://`. -/
def urlPatternTest (url : String) : Bool :=
  jsStartsWith url "http://" || jsStartsWith url "https://"

/-- Validity of `mediaServerForm` (mediaservers.component.ts lines 64-73):
`required` (non-empty), `minLength 10` and `maxLength 200` on `api_key`;
`required` and `minLength 3` on `name`; `required`, `minLength 5` and the
`^https?://` pattern on `url`. -/
def formValid (m : MediaServerCreate) : Bool :=
  m.api_key != "" && decide (10 ≤ m.api_key.length) &&
    decide (m.api_key.length ≤ 200) &&
  m.name != "" && decide (3 ≤ m.name.length) &&
  m.url != "" && decide (5 ≤ m.url.length) && urlPatternTest m.url

/-- The mutable signals of `EditMediaServerComponent` together with its
`mediaServerId` input, as one explicit state record. -/
structure EditState where
  mediaServerId : Int
  mediaServerCreate : MediaServerCreate
  isCreate : Bool
  isConnectionTested : Bool
  isReadyToSubmit : Bool
  isSubmitting : Bool
  submitResult : String
deriving DecidableEq, Repr

/-- The inline error shown by `checkFormValidity`. -/
def invalidFormMessage : String :=
  "Form is invalid, please correct the errors and try again."

/-- `checkFormValidity` (mediaservers.component.ts lines 112-118): on an
invalid form it sets `submitResult` to the inline error and reports
`false`; otherwise it reports `true` and leaves the state alone. -/
def checkFormValidity (s : EditState) : Bool × EditState :=
  if formValid s.mediaServerCreate then (true, s)
  else (false, { s with submitResult := invalidFormMessage })

/-- A `MediaServerCreate` value passed where a `MediaServerUpdate` is
expected, as `updateMediaServer` does: every optional field is present. -/
def msCreateToUpdate (m : MediaServerCreate) : MediaServerUpdate :=
  { name := some m.name
    server_type := some m.server_type
    url := some m.url
    api_key := some m.api_key
    enabled := some m.enabled }

/-- `testConnection` (mediaservers.component.ts lines 194-198, up to the
subscription): validity check, progress message, then the test request
carrying the current form payload.  The second component is the request
issued, `none` when the handler returns without one. -/
def testConnection (s : EditState) : EditState × Option Request :=
  match checkFormValidity s with
  | (false, s1) => (s1, none)
  | (true, s1) =>
    ({ s1 with submitResult := "Testing connection..." },
      some (Request.test s1.mediaServerCreate))

/-- The `next` callback of `testConnection`
(mediaservers.component.ts lines 199-206): show the result; when its
lowercase form contains `success`, mark the connection tested and ready and
append the success hint to the shown result. -/
def testConnectionNext (result : String) (s : EditState) : EditState :=
  let s1 := { s with submitResult := result }
  if jsIncludes (jsToLowerCase result) "success" then
    { s1 with
      isConnectionTested := true
      isReadyToSubmit := true
      submitResult := s1.submitResult ++
        "\nConnection tested successfully. You can now submit." }
  else s1

/-- `createMediaServer` (mediaservers.component.ts lines 154-160, up to the
subscription): validity check, double-submit guard on `isSubmitting`, then
the create request with the current form payload. -/
def createMediaServer (s : EditState) : EditState × Option Request :=
  match checkFormValidity s with
  | (false, s1) => (s1, none)
  | (true, s1) =>
    if s1.isSubmitting then (s1, none)
    else
      ({ s1 with
          isSubmitting := true
          submitResult := "Creating media server, please wait..." },
        some (Request.create s1.mediaServerCreate))

/-- `updateMediaServer` (mediaservers.component.ts lines 213-219, up to the
subscription): validity check, double-submit guard, then the update request
for `mediaServerId` carrying the full form payload. -/
def updateMediaServer (s : EditState) : EditState × Option Request :=
  match checkFormValidity s with
  | (false, s1) => (s1, none)
  | (true, s1) =>
    if s1.isSubmitting then (s1, none)
    else
      ({ s1 with
          isSubmitting := true
          submitResult := "Updating media server, please wait..." },
        some (Request.update s1.mediaServerId
          (msCreateToUpdate s1.mediaServerCreate)))

/-- `onSubmit` (mediaservers.component.ts lines 138-152): validity check;
an untested connection routes to `testConnection`; otherwise `isCreate`
selects between `createMediaServer` and `updateMediaServer`. -/
def onSubmit (s : EditState) : EditState × Option Request :=
  match checkFormValidity s with
  | (false, s1) => (s1, none)
  | (true, s1) =>
    if !s1.isConnectionTested then testConnection s1
    else if s1.isCreate then createMediaServer s1
    else updateMediaServer s1

/-- Outcome of one run of the entry effect: the resulting `isCreate` flag,
the resulting service `mediaServerID`, whether the effect navigated back to
the list route, and the toasts emitted along the way. -/
structure EntryResult where
  isCreate : Bool
  clientID : Int
  redirected : Bool
  toasts : List Toast
deriving DecidableEq, Repr

/-- `mediaServerIDeffect` (mediaservers.component.ts lines 78-90): defer
while the snapshot is loading; a sentinel id enters create mode; a
non-sentinel id missing from the snapshot navigates back to the list and
returns before the targeted id is set; otherwise the id becomes the
service's targeted id.  `isCreate0` and `clientID0` are the values the
flags held before the run. -/
def mediaServerIDeffect (isLoading : Bool) (id : Int) (isCreate0 : Bool)
    (clientID0 : Int) (snapshot : List MediaServerRead) : EntryResult :=
  if isLoading then
    { isCreate := isCreate0, clientID := clientID0, redirected := false,
      toasts := [] }
  else if id == -1 then
    { isCreate := true, clientID := id, redirected := false, toasts := [] }
  else
    let res := mediaServerExists snapshot id
    if res.1 then
      { isCreate := isCreate0, clientID := id, redirected := false,
        toasts := res.2 }
    else
      { isCreate := isCreate0, clientID := clientID0, redirected := true,
        toasts := res.2 }

/-- The `mediaServerId` input transform (mediaservers.component.ts lines
41-46) applied to the numeric conversion of the bound value: `none` stands
for a conversion that produced NaN, which the transform maps to -1. -/
def mediaServerIdTransform (num : Option Int) : Int :=
  match num with
  | none => -1
  | some n => n

/-- Modelled from the spec: the routing configuration (`src/routing`, not
in the excerpt) binds the route parameter to the `mediaServerId` input, and an
absent parameter reaches the transform as `undefined`, whose JavaScript
`Number` conversion is NaN (`none` here); per the spec an absent parameter
is "treated as create". -/
def absentRouteParamNumber : Option Int := none

/-! ### Helper lemmas about the snapshot lookup -/

/-- With pairwise distinct ids, `Array.find` on an id hits the member
carrying that id. -/
theorem find_id_of_mem_nodup (l : List MediaServerRead) (id : Int)
    (s : MediaServerRead) (hnd : (l.map MediaServerRead.id).Nodup)
    (hmem : s ∈ l) (hid : s.id = id) :
    l.find? (fun x => x.id == id) = some s := by
  induction l with
  | nil => cases hmem
  | cons a tl ih =>
    simp only [List.map_cons, List.nodup_cons] at hnd
    rcases List.mem_cons.mp hmem with h | h
    · subst h
      exact List.find?_cons_of_pos _ (by simp [hid])
    · have hane : (a.id == id) = false := by
        rw [beq_eq_false_iff_ne]
        intro he
        exact hnd.1 (by
          rw [he, ← hid]
          exact List.mem_map_of_mem MediaServerRead.id h)
      simp only [List.find?_cons, hane]
      exact ih hnd.2 h

/-- `Array.find` misses when no member carries the id. -/
theorem find_id_eq_none (l : List MediaServerRead) (id : Int)
    (habs : ∀ s ∈ l, s.id ≠ id) :
    l.find? (fun x => x.id == id) = none := by
  rw [List.find?_eq_none]
  intro x hx
  simp [habs x hx]

/-- A concrete persisted server used to instantiate witnesses. -/
def srvFive : MediaServerRead :=
  { id := 5
    name := "Home Emby"
    server_type := MediaServerType.Emby
    url := "http://192.168.1.5:8096"
    api_key := "1234567890"
    enabled := true
    added_at := "2025-01-01T00:00:00.000Z" }

/-! ### Claims about the service layer -/

/-- Claim C1: for every id matching an entity of the snapshot,
`selectedMediaServer` returns exactly that entity; for every targeted id
with no match, it returns the sentinel placeholder whose id is -1 (the
construction-time `newMediaServer`).  Snapshot ids are pairwise distinct,
the invariant the backend guarantees. -/
theorem selectedMediaServer_spec (t : String) (snapshot : List MediaServerRead)
    (id : Int) (hnd : (snapshot.map MediaServerRead.id).Nodup) :
    (∀ s ∈ snapshot, s.id = id → selectedMediaServer t snapshot id = s) ∧
    ((∀ s ∈ snapshot, s.id ≠ id) →
      selectedMediaServer t snapshot id = newMediaServer t) := by
  constructor
  · intro s hmem hid
    unfold selectedMediaServer
    rw [find_id_of_mem_nodup snapshot id s hnd hmem hid]
  · intro habs
    unfold selectedMediaServer
    rw [find_id_eq_none snapshot id habs]

/-- Witness for C1 at a one-element snapshot: the present id 5 returns the
entity, the absent id 7 returns the placeholder. -/
theorem selectedMediaServer_spec_witness :
    selectedMediaServer "2025-01-01T00:00:00.000Z" [srvFive] 5 = srvFive ∧
    selectedMediaServer "2025-01-01T00:00:00.000Z" [srvFive] 7 =
      newMediaServer "2025-01-01T00:00:00.000Z" := by
  constructor
  · exact (selectedMediaServer_spec "2025-01-01T00:00:00.000Z" [srvFive] 5
      (by decide)).1 srvFive (by decide) (by decide)
  · exact (selectedMediaServer_spec "2025-01-01T00:00:00.000Z" [srvFive] 7
      (by decide)).2 (by decide)

/-- Claim C10: any two targeted ids absent from the same snapshot produce
the identical placeholder value of the same service instance (construction
time `t`), whose `added_at` is the construction timestamp; nothing about
the requested absent id is reflected in the result. -/
theorem selectedMediaServer_absent_uniform (t : String)
    (snapshot : List MediaServerRead) (id1 id2 : Int)
    (h1 : ∀ s ∈ snapshot, s.id ≠ id1) (h2 : ∀ s ∈ snapshot, s.id ≠ id2) :
    selectedMediaServer t snapshot id1 = selectedMediaServer t snapshot id2 ∧
    selectedMediaServer t snapshot id1 = newMediaServer t ∧
    (selectedMediaServer t snapshot id1).added_at = t := by
  unfold selectedMediaServer
  rw [find_id_eq_none snapshot id1 h1, find_id_eq_none snapshot id2 h2]
  exact ⟨rfl, rfl, rfl⟩

/-- Witness for C10: absent ids 7 and 100 on a one-element snapshot. -/
theorem selectedMediaServer_absent_uniform_witness :
    selectedMediaServer "2025-01-01T00:00:00.000Z" [srvFive] 7 =
      selectedMediaServer "2025-01-01T00:00:00.000Z" [srvFive] 100 ∧
    selectedMediaServer "2025-01-01T00:00:00.000Z" [srvFive] 7 =
      newMediaServer "2025-01-01T00:00:00.000Z" ∧
    (selectedMediaServer "2025-01-01T00:00:00.000Z" [srvFive] 7).added_at =
      "2025-01-01T00:00:00.000Z" :=
  selectedMediaServer_absent_uniform "2025-01-01T00:00:00.000Z" [srvFive]
    7 100 (by decide) (by decide)

/-- Claim C6 counterexample: at the concrete construction time
`2025-01-01T00:00:00.000Z` and the absent targeted id 7 on the empty
snapshot, the returned placeholder does not have empty strings in every
field besides id: its `server_type` carries the string value `emby` and its
`added_at` the construction timestamp. -/
theorem sentinel_fields_cex :
    ¬ ((selectedMediaServer "2025-01-01T00:00:00.000Z" [] 7).enabled = true ∧
       (selectedMediaServer "2025-01-01T00:00:00.000Z" [] 7).name = "" ∧
       (selectedMediaServer "2025-01-01T00:00:00.000Z" [] 7).url = "" ∧
       (selectedMediaServer "2025-01-01T00:00:00.000Z" [] 7).api_key = "" ∧
       MediaServerType.value
         (selectedMediaServer "2025-01-01T00:00:00.000Z" [] 7).server_type = "" ∧
       (selectedMediaServer "2025-01-01T00:00:00.000Z" [] 7).added_at = "") := by
  decide

/-- Claim C6 (amended): the placeholder returned for an absent targeted id
has id = -1, enabled = true and empty strings in `name`, `url` and
`api_key`; its `server_type` is the default `Emby` (string value `emby`)
and its `added_at` is the service construction timestamp. -/
theorem sentinel_fields (t : String) (snapshot : List MediaServerRead)
    (id : Int) (habs : ∀ s ∈ snapshot, s.id ≠ id) :
    (selectedMediaServer t snapshot id).id = -1 ∧
    (selectedMediaServer t snapshot id).enabled = true ∧
    (selectedMediaServer t snapshot id).name = "" ∧
    (selectedMediaServer t snapshot id).url = "" ∧
    (selectedMediaServer t snapshot id).api_key = "" ∧
    (selectedMediaServer t snapshot id).server_type = MediaServerType.Emby ∧
    (selectedMediaServer t snapshot id).added_at = t := by
  unfold selectedMediaServer
  rw [find_id_eq_none snapshot id habs]
  exact ⟨rfl, rfl, rfl, rfl, rfl, rfl, rfl⟩

/-- Witness for the amended C6 at the absent id 7. -/
theorem sentinel_fields_witness :
    (selectedMediaServer "2025-01-01T00:00:00.000Z" [srvFive] 7).id = -1 ∧
    (selectedMediaServer "2025-01-01T00:00:00.000Z" [srvFive] 7).enabled = true ∧
    (selectedMediaServer "2025-01-01T00:00:00.000Z" [srvFive] 7).name = "" ∧
    (selectedMediaServer "2025-01-01T00:00:00.000Z" [srvFive] 7).url = "" ∧
    (selectedMediaServer "2025-01-01T00:00:00.000Z" [srvFive] 7).api_key = "" ∧
    (selectedMediaServer "2025-01-01T00:00:00.000Z" [srvFive] 7).server_type =
      MediaServerType.Emby ∧
    (selectedMediaServer "2025-01-01T00:00:00.000Z" [srvFive] 7).added_at =
      "2025-01-01T00:00:00.000Z" :=
  sentinel_fields "2025-01-01T00:00:00.000Z" [srvFive] 7 (by decide)

/-- Claim C4: `mediaServerExists (-1)` emits no notification whatever the
snapshot holds; on any other absent id it returns false and emits exactly
the one error toast; on a present id it returns true with no toast. -/
theorem mediaServerExists_spec (snapshot : List MediaServerRead) (id : Int) :
    (mediaServerExists snapshot (-1)).2 = [] ∧
    (id ≠ -1 → (∀ s ∈ snapshot, s.id ≠ id) →
      (mediaServerExists snapshot id).1 = false ∧
      (mediaServerExists snapshot id).2 =
        [{ message := "Media Server with ID \x27" ++ toString id ++
            "\x27 does not exist.", level := "error" }]) ∧
    ((∃ s ∈ snapshot, s.id = id) →
      (mediaServerExists snapshot id).1 = true ∧
      (mediaServerExists snapshot id).2 = []) := by
  refine ⟨?_, ?_, ?_⟩
  · unfold mediaServerExists
    cases h : snapshot.any (fun s => s.id == (-1 : Int)) <;> simp [h]
  · intro hne habs
    have hany : snapshot.any (fun s => s.id == id) = false := by
      rw [List.any_eq_false]
      intro x hx
      simp [habs x hx]
    have hbne : (id != -1) = true := by simp [bne_iff_ne, hne]
    unfold mediaServerExists
    simp [hany, hbne]
  · rintro ⟨s, hs, hid⟩
    have hany : snapshot.any (fun x => x.id == id) = true :=
      List.any_eq_true.mpr ⟨s, hs, by simp [hid]⟩
    unfold mediaServerExists
    simp [hany]

/-- Witness for C4: sentinel, the absent id 7 and the present id 5 on the
one-element snapshot. -/
theorem mediaServerExists_spec_witness :
    (mediaServerExists [srvFive] (-1)).2 = [] ∧
    ((mediaServerExists [srvFive] 7).1 = false ∧
      (mediaServerExists [srvFive] 7).2 =
        [{ message := "Media Server with ID \x27" ++ toString (7 : Int) ++
            "\x27 does not exist.", level := "error" }]) ∧
    ((mediaServerExists [srvFive] 5).1 = true ∧
      (mediaServerExists [srvFive] 5).2 = []) := by
  refine ⟨(mediaServerExists_spec [srvFive] 7).1,
    (mediaServerExists_spec [srvFive] 7).2.1 (by decide) (by decide),
    (mediaServerExists_spec [srvFive] 5).2.2 ⟨srvFive, by decide, by decide⟩⟩

/-! ### Claims about the edit/create workflow -/

/-- The payload of the creation scenario in the spec. -/
def createPayload : MediaServerCreate :=
  { name := "Home Emby"
    server_type := MediaServerType.Emby
    url := "http://192.168.1.5:8096"
    api_key := "1234567890"
    enabled := true }

/-- The view state on entering create mode with `createPayload` filled in. -/
def entryCreateState : EditState :=
  { mediaServerId := -1
    mediaServerCreate := createPayload
    isCreate := true
    isConnectionTested := false
    isReadyToSubmit := false
    isSubmitting := false
    submitResult := "" }

/-- Claim C2: on a valid, not yet tested form in create mode, a submit
issues only the test request carrying the form payload; while no test
response marked the connection tested, a further submit again issues only a
test request; once the test resolved with a string containing `success`
(case-insensitively), the next submit issues the create request with
exactly the tested payload. -/
theorem testThenCreate_workflow (s : EditState) (p : MediaServerCreate)
    (hp : s.mediaServerCreate = p) (hvalid : formValid p = true)
    (htested : s.isConnectionTested = false) (hcreate : s.isCreate = true)
    (hsub : s.isSubmitting = false) :
    (onSubmit s).2 = some (Request.test p) ∧
    (∀ r, jsIncludes (jsToLowerCase r) "success" = false →
      (onSubmit (testConnectionNext r (onSubmit s).1)).2 =
        some (Request.test p)) ∧
    (∀ r, jsIncludes (jsToLowerCase r) "success" = true →
      (onSubmit (testConnectionNext r (onSubmit s).1)).2 =
        some (Request.create p)) := by
  refine ⟨?_, fun r hr => ?_, fun r hr => ?_⟩
  · simp [onSubmit, testConnection, checkFormValidity, hp, hvalid, htested]
  · simp [onSubmit, testConnection, testConnectionNext, checkFormValidity,
      hp, hvalid, htested, hr]
  · simp [onSubmit, testConnection, testConnectionNext, createMediaServer,
      checkFormValidity, hp, hvalid, htested, hcreate, hsub, hr]

/-- Witness for C2: the spec's creation scenario, with a failed and then a
successful test response. -/
theorem testThenCreate_workflow_witness :
    (onSubmit entryCreateState).2 = some (Request.test createPayload) ∧
    (onSubmit (testConnectionNext "Connection refused"
        (onSubmit entryCreateState).1)).2 = some (Request.test createPayload) ∧
    (onSubmit (testConnectionNext "Connection Successful"
        (onSubmit entryCreateState).1)).2 =
      some (Request.create createPayload) := by
  obtain ⟨h1, h2, h3⟩ := testThenCreate_workflow entryCreateState createPayload
    rfl (by decide) rfl rfl rfl
  exact ⟨h1, h2 "Connection refused" (by decide),
    h3 "Connection Successful" (by decide)⟩

/-- Claim C3: while `isSubmitting` is set, `createMediaServer` and
`updateMediaServer` issue no request, and neither does a repeated
`onSubmit` on a tested form (the handlers return before the service
call). -/
theorem isSubmitting_blocks_resubmit (s : EditState)
    (hsub : s.isSubmitting = true) :
    (createMediaServer s).2 = none ∧ (updateMediaServer s).2 = none ∧
    (s.isConnectionTested = true → (onSubmit s).2 = none) := by
  have hcr : (createMediaServer s).2 = none := by
    cases hv : formValid s.mediaServerCreate <;>
      simp [createMediaServer, checkFormValidity, hv, hsub]
  have hup : (updateMediaServer s).2 = none := by
    cases hv : formValid s.mediaServerCreate <;>
      simp [updateMediaServer, checkFormValidity, hv, hsub]
  refine ⟨hcr, hup, fun ht => ?_⟩
  cases hv : formValid s.mediaServerCreate
  · simp [onSubmit, checkFormValidity, hv]
  · cases hic : s.isCreate <;>
      simp [onSubmit, checkFormValidity, hv, ht, hic, hcr, hup]

/-- Witness for C3: an in-flight submission on the tested creation form. -/
theorem isSubmitting_blocks_resubmit_witness :
    (createMediaServer { entryCreateState with
        isConnectionTested := true, isReadyToSubmit := true,
        isSubmitting := true }).2 = none ∧
    (updateMediaServer { entryCreateState with
        isConnectionTested := true, isReadyToSubmit := true,
        isSubmitting := true }).2 = none ∧
    (onSubmit { entryCreateState with
        isConnectionTested := true, isReadyToSubmit := true,
        isSubmitting := true }).2 = none := by
  obtain ⟨h1, h2, h3⟩ := isSubmitting_blocks_resubmit { entryCreateState with
    isConnectionTested := true, isReadyToSubmit := true,
    isSubmitting := true } rfl
  exact ⟨h1, h2, h3 rfl⟩

/-- Claim C5: a form whose api_key is shorter than 10 characters, or whose
url does not start with `http://` or `https://`, or whose name is shorter
than 3 characters, fails validation; any submit shows the inline error and
none of the handlers issues a request of any kind. -/
theorem invalidForm_blocks_submission (s : EditState)
    (h : s.mediaServerCreate.api_key.length < 10 ∨
         urlPatternTest s.mediaServerCreate.url = false ∨
         s.mediaServerCreate.name.length < 3) :
    formValid s.mediaServerCreate = false ∧
    (onSubmit s).2 = none ∧
    (onSubmit s).1.submitResult = invalidFormMessage ∧
    (testConnection s).2 = none ∧
    (createMediaServer s).2 = none ∧
    (updateMediaServer s).2 = none := by
  have hfv : formValid s.mediaServerCreate = false := by
    unfold formValid
    rcases h with h | h | h
    · have hn : ¬ (10 ≤ s.mediaServerCreate.api_key.length) := Nat.not_le.mpr h
      simp [hn]
    · simp [h]
    · have hn : ¬ (3 ≤ s.mediaServerCreate.name.length) := Nat.not_le.mpr h
      simp [hn]
  refine ⟨hfv, ?_, ?_, ?_, ?_, ?_⟩ <;>
    simp [onSubmit, testConnection, createMediaServer, updateMediaServer,
      checkFormValidity, hfv]

/-- Witness for C5: the creation payload with a 5-character api_key. -/
theorem invalidForm_blocks_submission_witness :
    formValid { createPayload with api_key := "short" } = false ∧
    (onSubmit { entryCreateState with
        mediaServerCreate := { createPayload with api_key := "short" } }).2 =
      none ∧
    (Prod.fst (onSubmit { entryCreateState with
        mediaServerCreate :=
          { createPayload with api_key := "short" } })).submitResult =
      invalidFormMessage ∧
    (testConnection { entryCreateState with
        mediaServerCreate := { createPayload with api_key := "short" } }).2 =
      none ∧
    (createMediaServer { entryCreateState with
        mediaServerCreate := { createPayload with api_key := "short" } }).2 =
      none ∧
    (updateMediaServer { entryCreateState with
        mediaServerCreate := { createPayload with api_key := "short" } }).2 =
      none :=
  invalidForm_blocks_submission { entryCreateState with
    mediaServerCreate := { createPayload with api_key := "short" } }
    (Or.inl (by decide))

/-- `updateMediaServer` only ever sends the full projection of the current
form payload. -/
theorem updateMediaServer_payload (s : EditState) (i : Int)
    (u : MediaServerUpdate)
    (h : (updateMediaServer s).2 = some (Request.update i u)) :
    u = msCreateToUpdate s.mediaServerCreate := by
  cases hv : formValid s.mediaServerCreate <;>
    simp [updateMediaServer, checkFormValidity, hv] at h
  cases hsb : s.isSubmitting <;> simp [hsb] at h
  exact h.2.symm

/-- Claim C9: whenever the workflow issues an update request — directly
through `updateMediaServer` or through `onSubmit` — its payload is the full
projection of the form state: all five optional fields are present, so a
genuinely partial update is never sent. -/
theorem updatePayload_complete (s : EditState) (i : Int)
    (u : MediaServerUpdate)
    (h : (updateMediaServer s).2 = some (Request.update i u) ∨
         (onSubmit s).2 = some (Request.update i u)) :
    u = msCreateToUpdate s.mediaServerCreate ∧
    u.name.isSome = true ∧ u.server_type.isSome = true ∧
    u.url.isSome = true ∧ u.api_key.isSome = true ∧
    u.enabled.isSome = true := by
  have hu : u = msCreateToUpdate s.mediaServerCreate := by
    rcases h with h | h
    · exact updateMediaServer_payload s i u h
    · cases hv : formValid s.mediaServerCreate <;>
        simp [onSubmit, checkFormValidity, hv] at h
      cases ht : s.isConnectionTested <;> simp [ht] at h
      · exact absurd h (by simp [testConnection, checkFormValidity, hv])
      · cases hic : s.isCreate <;> simp [hic] at h
        · exact updateMediaServer_payload s i u h
        · exact absurd h (by
            cases hsb : s.isSubmitting <;>
              simp [createMediaServer, checkFormValidity, hv, hsb])
  subst hu
  simp [msCreateToUpdate]

/-- Witness for C9: the tested edit form of server 5 issues the update
request with every field present. -/
theorem updatePayload_complete_witness :
    msCreateToUpdate createPayload =
      msCreateToUpdate ({ entryCreateState with
        mediaServerId := 5, isCreate := false, isConnectionTested := true,
        isReadyToSubmit := true }).mediaServerCreate ∧
    (msCreateToUpdate createPayload).name.isSome = true ∧
    (msCreateToUpdate createPayload).server_type.isSome = true ∧
    (msCreateToUpdate createPayload).url.isSome = true ∧
    (msCreateToUpdate createPayload).api_key.isSome = true ∧
    (msCreateToUpdate createPayload).enabled.isSome = true :=
  updatePayload_complete { entryCreateState with
      mediaServerId := 5, isCreate := false, isConnectionTested := true,
      isReadyToSubmit := true } 5 (msCreateToUpdate createPayload)
    (Or.inl (by decide))

/-! ### Claims about the entry workflow -/

/-- Claim C7: an absent route parameter (spec-modelled as the NaN-valued
binding) is transformed to the sentinel -1, so on a loaded snapshot the
entry effect enters create mode, with exactly the outcome it has for the
explicit sentinel parameter. -/
theorem absentParam_create_mode (isCreate0 : Bool) (clientID0 : Int)
    (snapshot : List MediaServerRead) :
    mediaServerIdTransform absentRouteParamNumber = -1 ∧
    (mediaServerIDeffect false (mediaServerIdTransform absentRouteParamNumber)
      isCreate0 clientID0 snapshot).isCreate = true ∧
    mediaServerIDeffect false (mediaServerIdTransform absentRouteParamNumber)
        isCreate0 clientID0 snapshot =
      mediaServerIDeffect false (mediaServerIdTransform (some (-1)))
        isCreate0 clientID0 snapshot := by
  refine ⟨rfl, ?_, rfl⟩
  simp [mediaServerIDeffect, mediaServerIdTransform, absentRouteParamNumber]

/-- Claim C8: a non-sentinel id absent from the loaded snapshot makes the
entry effect redirect to the list route and return early: the service's
targeted id keeps its previous value (so the form stays bound to whatever
it was bound to before) and `isCreate` is untouched. -/
theorem missingId_redirects (id : Int) (isCreate0 : Bool) (clientID0 : Int)
    (snapshot : List MediaServerRead) (hne : id ≠ -1)
    (habs : ∀ s ∈ snapshot, s.id ≠ id) :
    (mediaServerIDeffect false id isCreate0 clientID0 snapshot).redirected =
      true ∧
    (mediaServerIDeffect false id isCreate0 clientID0 snapshot).clientID =
      clientID0 ∧
    (mediaServerIDeffect false id isCreate0 clientID0 snapshot).isCreate =
      isCreate0 := by
  have hany : snapshot.any (fun s => s.id == id) = false := by
    rw [List.any_eq_false]
    intro x hx
    simp [habs x hx]
  have hex1 : (mediaServerExists snapshot id).1 = false := by
    have hbne : (id != -1) = true := by simp [bne_iff_ne, hne]
    simp [mediaServerExists, hany, hbne]
  simp [mediaServerIDeffect, hne, hex1]

/-- Witness for C8: entering with the absent id 7 on the one-element
snapshot leaves the previous targeted id -1 in place and redirects. -/
theorem missingId_redirects_witness :
    (mediaServerIDeffect false 7 false (-1) [srvFive]).redirected = true ∧
    (mediaServerIDeffect false 7 false (-1) [srvFive]).clientID = -1 ∧
    (mediaServerIDeffect false 7 false (-1) [srvFive]).isCreate = false :=
  missingId_redirects 7 false (-1) [srvFive] (by decide) (by decide)

end Trailarr
